import Mathlib

/-!
Verification development for the sonetwork repository: a shallow embedding of
the per-node networking/election engine (network_node.py, network.py) and the
connectivity monitor (network_monitor.py), with theorems settling the spec
claims about message handling, lifecycle, identifiers and the wire codec.
-/

/-- A JSON scalar as used by the flat wire-message dictionaries: the code only
ever stores numbers (ids, timestamps) and strings (the type discriminator).
Timestamps are modelled as integers. -/
inductive JVal where
  | num (n : Int)
  | str (s : String)
deriving DecidableEq, Repr

/-- A flat JSON object: ordered key/value pairs, as built by the dict literals
in the source. -/
abbrev JObj := List (String × JVal)

/-- Dictionary lookup, mirroring Python dict.get: first matching key, or
none when the key is absent. -/
def JObj.get (o : JObj) (k : String) : Option JVal :=
  match o with
  | [] => none
  | (k1, v) :: rest => if k1 = k then some v else JObj.get rest k

/-- The string type discriminator of a message, when present and a string. -/
def JObj.msgType (o : JObj) : Option String :=
  match o.get "type" with
  | some (.str s) => some s
  | _ => none

/-- The heartbeat dict built in NetworkNode._send_heartbeat / Node._send_heartbeat. -/
def heartbeatMsg (master_id timestamp : Int) : JObj :=
  [("type", .str "heartbeat"), ("master_id", .num master_id),
   ("timestamp", .num timestamp)]

/-- The election dict built in NetworkNode._initiate_election / Node._initiate_election. -/
def electionMsg (proposed_master timestamp : Int) : JObj :=
  [("type", .str "master_election"), ("proposed_master", .num proposed_master),
   ("timestamp", .num timestamp)]

/-- The probe dict built in NetworkMonitor._check_connection. -/
def connectionTestMsg (from_id timestamp : Int) : JObj :=
  [("type", .str "connection_test"), ("from_id", .num from_id),
   ("timestamp", .num timestamp)]

/-- Modelled from the spec: no code under src/ ever constructs a
connection_test_response message (NetworkMonitor._check_connection only waits
for one); per spec section 6 it is a record with the type discriminator and the
type-specific fields from_id and timestamp. -/
def connectionTestResponseMsg (from_id timestamp : Int) : JObj :=
  [("type", .str "connection_test_response"), ("from_id", .num from_id),
   ("timestamp", .num timestamp)]

/-- The four wire message kinds of the protocol (spec section 3's tagged union,
with the field names the code uses). -/
inductive Message where
  | heartbeat (master_id timestamp : Int)
  | master_election (proposed_master timestamp : Int)
  | connection_test (from_id timestamp : Int)
  | connection_test_response (from_id timestamp : Int)
deriving DecidableEq, Repr

/-- Encode a message to its structured payload, each arm taken from the dict
literal at its construction site in the source. -/
def Message.encode : Message → JObj
  | .heartbeat m t => heartbeatMsg m t
  | .master_election p t => electionMsg p t
  | .connection_test f t => connectionTestMsg f t
  | .connection_test_response f t => connectionTestResponseMsg f t

/-- Modelled from the spec: the source has no central decoder producing message
values (NetworkNode._handle_message dispatches on message.get of type and reads
the fields in place); this decoder follows the spec section 6 schema and the
field accesses of _handle_message and _check_connection. -/
def Message.decode (o : JObj) : Option Message :=
  match o.msgType with
  | some ty =>
    if ty = "heartbeat" then
      match o.get "master_id", o.get "timestamp" with
      | some (.num m), some (.num t) => some (.heartbeat m t)
      | _, _ => none
    else if ty = "master_election" then
      match o.get "proposed_master", o.get "timestamp" with
      | some (.num p), some (.num t) => some (.master_election p t)
      | _, _ => none
    else if ty = "connection_test" then
      match o.get "from_id", o.get "timestamp" with
      | some (.num f), some (.num t) => some (.connection_test f t)
      | _, _ => none
    else if ty = "connection_test_response" then
      match o.get "from_id", o.get "timestamp" with
      | some (.num f), some (.num t) => some (.connection_test_response f t)
      | _, _ => none
    else none
  | none => none

/-- An observable side effect of a node operation: a datagram sent to an
address, a Qt signal emission, or a transport shutdown/close transition. -/
inductive Effect where
  | send (host : String) (port : Int) (msg : JObj)
  | emitMasterChanged (master_id : Option JVal)
  | emitNodeDied (id : Int)
  | socketShutdown
  | socketClose
deriving DecidableEq, Repr

/-- State of a network_node.NetworkNode instance: the fields set in __init__.
The socket is some () while bound and none after stop clears it; time values
are modelled as integers. -/
structure NetworkNode where
  host : String
  port : Int
  is_master : Bool
  address : String
  is_active : Bool
  id : Int
  peers : List (Int × String × Int)
  master_id : Option JVal
  socket : Option Unit
  alive : Bool
  last_heartbeat : Int
  cleanup_in_progress : Bool
deriving DecidableEq, Repr

/-- NetworkNode.__init__ with a successfully bound socket (bind failure is
modelled separately by create_socket): id is port - base_port, master_id is 0
for the initial master and None otherwise, and last_heartbeat is the
construction time. -/
def NetworkNode.init (host : String) (port : Int) (is_master : Bool)
    (base_port : Int) (now : Int) : NetworkNode :=
  { host := host
    port := port
    is_master := is_master
    address := host ++ ":" ++ toString port
    is_active := true
    id := port - base_port
    peers := []
    master_id := if is_master then some (.num 0) else none
    socket := some ()
    alive := true
    last_heartbeat := now
    cleanup_in_progress := false }

/-- Numeric value of a run of decimal digit characters, mirroring Python int()
on a digit string. -/
def digitsVal (cs : List Char) : Nat :=
  cs.foldl (fun a c => a * 10 + (c.toNat - 48)) 0

/-- Maximal runs of consecutive decimal digits in a character list, mirroring
re.findall of one-or-more digits: acc accumulates the current run reversed. -/
def digitRuns : List Char → List Char → List (List Char)
  | [], acc => if acc.isEmpty then [] else [acc.reverse]
  | c :: cs, acc =>
    if c.isDigit then digitRuns cs (c :: acc)
    else if acc.isEmpty then digitRuns cs []
    else acc.reverse :: digitRuns cs []

/-- NetworkNode._calculate_host_id: sum of the integer values of all maximal
digit runs found in the host string, 0 when there are none. -/
def NetworkNode.calculate_host_id (host : String) : Int :=
  ((digitRuns host.data []).map (fun r => (digitsVal r : Int))).sum

/-- NetworkNode._broadcast_message: one datagram per registered peer carrying
the same message (per-peer send failures are swallowed by the source and do
not alter state). -/
def NetworkNode.broadcast (s : NetworkNode) (msg : JObj) : List Effect :=
  s.peers.map (fun pr => Effect.send pr.2.1 pr.2.2 msg)

/-- NetworkNode._handle_message: dispatch on the type discriminator. Returns
none when the Python code would raise (comparing a missing or non-numeric
proposed_master against the integer id); the listener loop swallows that
exception leaving state unchanged. Heartbeats update last_heartbeat and, on a
changed master_id field, the master pointer plus a master_changed emission;
election proposals are forwarded unchanged when higher than the own id and
countered with a fresh self-proposal when lower; everything else is ignored. -/
def NetworkNode.handle_message (s : NetworkNode) (msg : JObj) (now : Int) :
    Option (NetworkNode × List Effect) :=
  match msg.msgType with
  | some ty =>
    if ty = "heartbeat" then
      if s.is_master then some (s, [])
      else
        if msg.get "master_id" ≠ s.master_id then
          some ({ s with last_heartbeat := now,
                         master_id := msg.get "master_id" },
                [Effect.emitMasterChanged (msg.get "master_id")])
        else some ({ s with last_heartbeat := now }, [])
    else if ty = "master_election" then
      if s.is_master then some (s, [])
      else
        match msg.get "proposed_master" with
        | some (.num p) =>
          if p > s.id then some (s, s.broadcast msg)
          else if p < s.id then some (s, s.broadcast (electionMsg s.id now))
          else some (s, [])
        | _ => none
    else some (s, [])
  | none => some (s, [])

/-- NetworkNode._send_heartbeat: one iteration of the master heartbeat loop,
guarded by the loop condition alive and is_master. -/
def NetworkNode.heartbeat_tick (s : NetworkNode) (now : Int) :
    NetworkNode × List Effect :=
  if s.alive ∧ s.is_master then (s, s.broadcast (heartbeatMsg s.id now))
  else (s, [])

/-- NetworkNode._monitor_master: one iteration of the follower monitor loop,
guarded by the loop condition alive and not is_master; broadcasts a
self-proposal when the last heartbeat is more than 3 seconds stale. -/
def NetworkNode.monitor_tick (s : NetworkNode) (now : Int) :
    NetworkNode × List Effect :=
  if s.alive ∧ ¬ s.is_master then
    if now - s.last_heartbeat > 3 then (s, s.broadcast (electionMsg s.id now))
    else (s, [])
  else (s, [])

/-- NetworkNode._initiate_election: broadcast a fresh proposal of the own id. -/
def NetworkNode.initiate_election (s : NetworkNode) (now : Int) :
    NetworkNode × List Effect :=
  (s, s.broadcast (electionMsg s.id now))

/-- NetworkNode.stop, line by line: guarded by cleanup_in_progress; sets the
flag, clears alive and is_active, shuts down and closes the socket when
present, then checks cleanup_in_progress again before emitting node_died (the
flag was just set, so that check is evaluated against the updated flag), and
finally resets the flag. -/
def NetworkNode.stop (s : NetworkNode) : NetworkNode × List Effect :=
  if ¬ s.cleanup_in_progress then
    let s1 : NetworkNode :=
      { s with cleanup_in_progress := true, alive := false, is_active := false }
    let closed :=
      match s1.socket with
      | some _ => ({ s1 with socket := none },
                   [Effect.socketShutdown, Effect.socketClose])
      | none => (s1, ([] : List Effect))
    let s2 := closed.1
    let emits : List Effect :=
      if ¬ s2.cleanup_in_progress then [Effect.emitNodeDied s2.id] else []
    ({ s2 with cleanup_in_progress := false }, closed.2 ++ emits)
  else (s, [])

/-- One protocol-engine step of a node: receiving a datagram, a monitor-loop
iteration, a direct election initiation, or a heartbeat-loop iteration. -/
inductive ProtoStep where
  | recv (msg : JObj) (now : Int)
  | monitor (now : Int)
  | elect (now : Int)
  | heartbeatTick (now : Int)
deriving DecidableEq, Repr

/-- Dispatch one protocol step on a NetworkNode. A handler exception (the none
case of handle_message) is swallowed by the listener loop with the state
unchanged and nothing sent. -/
def NetworkNode.protoStep (s : NetworkNode) : ProtoStep → NetworkNode × List Effect
  | .recv msg now =>
    match s.handle_message msg now with
    | some r => r
    | none => (s, [])
  | .monitor now => s.monitor_tick now
  | .elect now => s.initiate_election now
  | .heartbeatTick now => s.heartbeat_tick now

/-- Run a sequence of protocol steps on a NetworkNode, keeping the states. -/
def NetworkNode.run (s : NetworkNode) (steps : List ProtoStep) : NetworkNode :=
  steps.foldl (fun st step => (st.protoStep step).1) s

/-- State of a network.Node instance (the plain prototype class): master_id is
a plain integer initialised to 0 and the socket is tracked as open or closed. -/
structure Node where
  id : Int
  host : String
  port : Int
  is_master : Bool
  peers : List (Int × String × Int)
  master_id : Int
  socketOpen : Bool
  address : String
  alive : Bool
  last_heartbeat : Int
deriving DecidableEq, Repr

/-- Node.__init__: port is base_port + node_id, node 0 is the master,
master_id starts at 0, the socket is bound. The last_heartbeat attribute is
first assigned in _monitor_master; it is initialised here to the given time. -/
def Node.init (node_id : Int) (host : String) (base_port : Int) (now : Int) : Node :=
  { id := node_id
    host := host
    port := base_port + node_id
    is_master := node_id = 0
    peers := []
    master_id := 0
    socketOpen := true
    address := host ++ ":" ++ toString (base_port + node_id)
    alive := true
    last_heartbeat := now }

/-- Node._broadcast_message: one datagram per registered peer. -/
def Node.broadcast (n : Node) (msg : JObj) : List Effect :=
  n.peers.map (fun pr => Effect.send pr.2.1 pr.2.2 msg)

/-- Node._handle_message: a follower receiving a heartbeat only refreshes
last_heartbeat (no master pointer update, no emission — the class has no
signals); election proposals are handled exactly as in NetworkNode. -/
def Node.handle_message (n : Node) (msg : JObj) (now : Int) :
    Option (Node × List Effect) :=
  match msg.msgType with
  | some ty =>
    if ty = "heartbeat" then
      if n.is_master then some (n, [])
      else some ({ n with last_heartbeat := now }, [])
    else if ty = "master_election" then
      if n.is_master then some (n, [])
      else
        match msg.get "proposed_master" with
        | some (.num p) =>
          if p > n.id then some (n, n.broadcast msg)
          else if p < n.id then some (n, n.broadcast (electionMsg n.id now))
          else some (n, [])
        | _ => none
    else some (n, [])
  | none => some (n, [])

/-- Node._monitor_master loop body, guarded by the loop condition. -/
def Node.monitor_tick (n : Node) (now : Int) : Node × List Effect :=
  if n.alive ∧ ¬ n.is_master then
    if now - n.last_heartbeat > 3 then (n, n.broadcast (electionMsg n.id now))
    else (n, [])
  else (n, [])

/-- Node._initiate_election. -/
def Node.initiate_election (n : Node) (now : Int) : Node × List Effect :=
  (n, n.broadcast (electionMsg n.id now))

/-- Node._send_heartbeat loop body, guarded by the loop condition. -/
def Node.heartbeat_tick (n : Node) (now : Int) : Node × List Effect :=
  if n.alive ∧ n.is_master then (n, n.broadcast (heartbeatMsg n.id now))
  else (n, [])

/-- Dispatch one protocol step on a Node. -/
def Node.protoStep (n : Node) : ProtoStep → Node × List Effect
  | .recv msg now =>
    match n.handle_message msg now with
    | some r => r
    | none => (n, [])
  | .monitor now => n.monitor_tick now
  | .elect now => n.initiate_election now
  | .heartbeatTick now => n.heartbeat_tick now

/-- Run a sequence of protocol steps on a Node. -/
def Node.run (n : Node) (steps : List ProtoStep) : Node :=
  steps.foldl (fun st step => (st.protoStep step).1) n

/-- Node.stop: clears alive and calls socket.close(). CPython socket.close is
idempotent, so closing an already-closed socket performs no transport
transition and raises nothing; the close effect records the open-to-closed
transition. -/
def Node.stop (n : Node) : Node × List Effect :=
  let n1 : Node := { n with alive := false }
  if n1.socketOpen then ({ n1 with socketOpen := false }, [Effect.socketClose])
  else (n1, [])

/-- NetworkNode._create_socket: bind is attempted, on OSError the code sleeps
one second and binds once more, and a failure of that retry propagates out of
construction. The bind oracle gives the outcome of the nth bind attempt; the
result counts the attempts made on success. -/
def NetworkNode.create_socket (bind : Nat → Option String) : Except String Nat :=
  match bind 0 with
  | none => .ok 1
  | some _ =>
    match bind 1 with
    | none => .ok 2
    | some e => .error e

/-- NetworkMonitor._check_connection success decision: true exactly when a
datagram arrived (none models timeout or a JSON decode error, both of which
return False) and its decoded type field equals connection_test_response. -/
def checkConnectionDecide (received : Option JObj) : Bool :=
  match received with
  | none => false
  | some r =>
    match r.get "type" with
    | some (.str s) => s = "connection_test_response"
    | _ => false

/-- The wire type discriminators the code actually constructs and checks. -/
def wireTypes : List String :=
  ["heartbeat", "master_election", "connection_test", "connection_test_response"]

/-- The discriminator set claimed by the spec section 6. -/
def claimedWireTypes : List String :=
  ["heartbeat", "master_election", "connectivity_test", "connectivity_test_response"]

/-- A concrete follower Node used in concrete evaluations: id 1 in a cluster
with base port 5000 and one registered peer. -/
def sampleNode : Node :=
  { Node.init 1 "localhost" 5000 0 with peers := [(0, "localhost", 5000)] }

/-- A concrete follower NetworkNode with one registered peer. -/
def sampleNetworkNode : NetworkNode :=
  { NetworkNode.init "localhost" 5001 false 5000 0 with
      peers := [(0, "localhost", 5000)] }

lemma NetworkNode.broadcast_send_eq (s : NetworkNode) (w m : JObj)
    (h1 : String) (p1 : Int) (hm : Effect.send h1 p1 m ∈ s.broadcast w) :
    m = w := by
  unfold NetworkNode.broadcast at hm
  rcases List.mem_map.mp hm with ⟨pr, _, heq⟩
  injection heq with _ _ h3
  exact h3.symm

lemma Node.prototype_broadcast_send_eq (n : Node) (w m : JObj)
    (h1 : String) (p1 : Int) (hm : Effect.send h1 p1 m ∈ n.broadcast w) :
    m = w := by
  unfold Node.broadcast at hm
  rcases List.mem_map.mp hm with ⟨pr, _, heq⟩
  injection heq with _ _ h3
  exact h3.symm

lemma checkConnectionDecide_false_of_msgType (m : JObj) (ty : String)
    (h : m.msgType = some ty) (hne : ty ≠ "connection_test_response") :
    checkConnectionDecide (some m) = false := by
  unfold JObj.msgType at h
  rcases hg : m.get "type" with _ | v
  · simp [checkConnectionDecide, hg]
  · cases v with
    | num k => simp [checkConnectionDecide, hg]
    | str s2 =>
      rw [hg] at h
      simp only [Option.some.injEq] at h
      subst h
      simp [checkConnectionDecide, hg, hne]

/-- Claim C7: encoding any of the four message kinds with arbitrary field
values and then decoding the payload yields the original message. -/
theorem C7_codec_round_trip (m : Message) : Message.decode m.encode = some m := by
  cases m <;> rfl

/-- Claim C6: the first bind attempt is retried exactly once after a failure,
a failing retry propagates the error out of construction, a success on either
attempt completes construction, and no bind attempt beyond the retry is ever
consulted. -/
theorem C6_bind_retry (bind : Nat → Option String) :
    (bind 0 = none → NetworkNode.create_socket bind = .ok 1) ∧
    (∀ e, bind 0 = some e → bind 1 = none →
      NetworkNode.create_socket bind = .ok 2) ∧
    (∀ e e2, bind 0 = some e → bind 1 = some e2 →
      NetworkNode.create_socket bind = .error e2) ∧
    (∀ bind2 : Nat → Option String, bind2 0 = bind 0 → bind2 1 = bind 1 →
      NetworkNode.create_socket bind2 = NetworkNode.create_socket bind) := by
  refine ⟨?_, ?_, ?_, ?_⟩
  · intro h0
    simp [NetworkNode.create_socket, h0]
  · intro e h0 h1
    simp [NetworkNode.create_socket, h0, h1]
  · intro e e2 h0 h1
    simp [NetworkNode.create_socket, h0, h1]
  · intro bind2 h0 h1
    unfold NetworkNode.create_socket
    rw [h0, h1]

/-- Witness for C6 at three concrete bind oracles: success first try, success
on the retry, and failure of both attempts. -/
theorem C6_bind_retry_witness :
    NetworkNode.create_socket (fun _ => none) = .ok 1 ∧
    NetworkNode.create_socket
      (fun k => if k = 0 then some "address in use" else none) = .ok 2 ∧
    NetworkNode.create_socket (fun _ => some "address in use") =
      .error "address in use" :=
  ⟨(C6_bind_retry (fun _ => none)).1 rfl,
   (C6_bind_retry (fun k => if k = 0 then some "address in use" else none)).2.1
     "address in use" rfl rfl,
   (C6_bind_retry (fun _ => some "address in use")).2.2.1
     "address in use" "address in use" rfl rfl⟩

/-- Counterexample to claim C5: the digit-summing helper is not injective
(hosts 1.2 and 2.1 both map to 3), and a node's self-assigned identifier
(port minus base_port, here 3) differs from the identifier a peer would
compute from the same host string via _calculate_host_id (localhost has no
digits, giving 0). -/
theorem C5_counterexample :
    NetworkNode.calculate_host_id "1.2" = NetworkNode.calculate_host_id "2.1" ∧
    ("1.2" : String) ≠ "2.1" ∧
    (NetworkNode.init "localhost" 5003 false 5000 0).id ≠
      NetworkNode.calculate_host_id "localhost" := by
  refine ⟨by decide, by decide, by decide⟩

/-- Claim C5 as amended: a node's own identifier is port minus base_port,
independent of the host string; the digit-run-summing _calculate_host_id is
used only for peer identifiers and need not agree with it. -/
theorem C5_id_from_port (host : String) (port : Int) (m : Bool)
    (base_port now : Int) :
    (NetworkNode.init host port m base_port now).id = port - base_port := rfl

/-- Counterexample to claim C8: the probe message is constructed with type
discriminator connection_test, which is not in the claimed set, and the
connectivity check succeeds on a message whose type is connection_test_response
rather than the claimed connectivity_test_response. -/
theorem C8_counterexample :
    JObj.msgType (connectionTestMsg 1 0) = some "connection_test" ∧
    "connection_test" ∉ claimedWireTypes ∧
    checkConnectionDecide (some (connectionTestResponseMsg 1 0)) = true ∧
    JObj.msgType (connectionTestResponseMsg 1 0) ≠
      some "connectivity_test_response" := by
  refine ⟨rfl, by decide, rfl, by decide⟩

/-- Claim C8 as amended: every constructed wire message carries a type
discriminator from the set with the spellings the code uses (heartbeat,
master_election, connection_test, connection_test_response), and the
connectivity check succeeds exactly on a received message whose type field is
the string connection_test_response. -/
theorem C8_wire_types (i t : Int) (r : JObj) :
    JObj.msgType (heartbeatMsg i t) = some "heartbeat" ∧
    JObj.msgType (electionMsg i t) = some "master_election" ∧
    JObj.msgType (connectionTestMsg i t) = some "connection_test" ∧
    "heartbeat" ∈ wireTypes ∧ "master_election" ∈ wireTypes ∧
    "connection_test" ∈ wireTypes ∧ "connection_test_response" ∈ wireTypes ∧
    (checkConnectionDecide (some r) = true ↔
      r.get "type" = some (.str "connection_test_response")) ∧
    checkConnectionDecide none = false := by
  refine ⟨rfl, rfl, rfl, by decide, by decide, by decide, by decide, ?_, rfl⟩
  rcases hg : r.get "type" with _ | v
  · simp [checkConnectionDecide, hg]
  · cases v with
    | num k => simp [checkConnectionDecide, hg]
    | str s2 => simp [checkConnectionDecide, hg]

/-- Claim C1: a non-leader node receiving a master_election proposal forwards
the identical message unchanged to all peers when the proposed identifier
exceeds its own, broadcasts a fresh proposal of its own identifier when the
proposed identifier is lower, does nothing on equality, and a leader ignores
the message entirely — in both NetworkNode and the prototype Node class. -/
theorem C1_election_handling (s : NetworkNode) (n : Node) (msg : JObj)
    (p now : Int)
    (hty : msg.msgType = some "master_election")
    (hp : msg.get "proposed_master" = some (.num p)) :
    (s.is_master = false → p > s.id →
      s.handle_message msg now = some (s, s.broadcast msg)) ∧
    (s.is_master = false → p < s.id →
      s.handle_message msg now = some (s, s.broadcast (electionMsg s.id now))) ∧
    (s.is_master = false → p = s.id →
      s.handle_message msg now = some (s, [])) ∧
    (s.is_master = true → s.handle_message msg now = some (s, [])) ∧
    (n.is_master = false → p > n.id →
      n.handle_message msg now = some (n, n.broadcast msg)) ∧
    (n.is_master = false → p < n.id →
      n.handle_message msg now = some (n, n.broadcast (electionMsg n.id now))) ∧
    (n.is_master = false → p = n.id →
      n.handle_message msg now = some (n, [])) ∧
    (n.is_master = true → n.handle_message msg now = some (n, [])) := by
  have hne : ("master_election" : String) ≠ "heartbeat" := by decide
  refine ⟨?_, ?_, ?_, ?_, ?_, ?_, ?_, ?_⟩
  · intro hm hgt
    simp [NetworkNode.handle_message, hty, hp, hm, hgt, hne]
  · intro hm hlt
    have hng : ¬ p > s.id := by omega
    simp [NetworkNode.handle_message, hty, hp, hm, hlt, hng, hne]
  · intro hm heq
    have hng : ¬ p > s.id := by omega
    have hnl : ¬ p < s.id := by omega
    simp [NetworkNode.handle_message, hty, hp, hm, hng, hnl, hne]
  · intro hm
    simp [NetworkNode.handle_message, hty, hp, hm, hne]
  · intro hm hgt
    simp [Node.handle_message, hty, hp, hm, hgt, hne]
  · intro hm hlt
    have hng : ¬ p > n.id := by omega
    simp [Node.handle_message, hty, hp, hm, hlt, hng, hne]
  · intro hm heq
    have hng : ¬ p > n.id := by omega
    have hnl : ¬ p < n.id := by omega
    simp [Node.handle_message, hty, hp, hm, hng, hnl, hne]
  · intro hm
    simp [Node.handle_message, hty, hp, hm, hne]

/-- Witness for C1: a concrete follower with identifier 1 forwards the
proposal for 5 unchanged, and counter-proposes against a proposal for 0. -/
theorem C1_election_handling_witness :
    sampleNetworkNode.handle_message (electionMsg 5 0) 7 =
      some (sampleNetworkNode, sampleNetworkNode.broadcast (electionMsg 5 0)) ∧
    sampleNetworkNode.handle_message (electionMsg 0 0) 7 =
      some (sampleNetworkNode,
            sampleNetworkNode.broadcast (electionMsg sampleNetworkNode.id 7)) :=
  ⟨(C1_election_handling sampleNetworkNode sampleNode (electionMsg 5 0) 5 7
      rfl rfl).1 rfl (by decide),
   (C1_election_handling sampleNetworkNode sampleNode (electionMsg 0 0) 0 7
      rfl rfl).2.1 rfl (by decide)⟩

/-- Claim C3 as amended: a NetworkNode follower receiving a heartbeat sets its
last-heartbeat time to now and, exactly when the master_id field differs from
the known master, updates the master pointer and emits master_changed with the
new value; the prototype Node follower only refreshes last_heartbeat, leaving
its master pointer unchanged and emitting nothing. -/
theorem C3_heartbeat_handling (s : NetworkNode) (n : Node) (msg : JObj)
    (now : Int)
    (hty : msg.msgType = some "heartbeat")
    (hs : s.is_master = false) (hn : n.is_master = false) :
    (msg.get "master_id" ≠ s.master_id →
      s.handle_message msg now =
        some ({ s with last_heartbeat := now, master_id := msg.get "master_id" },
              [Effect.emitMasterChanged (msg.get "master_id")])) ∧
    (msg.get "master_id" = s.master_id →
      s.handle_message msg now = some ({ s with last_heartbeat := now }, [])) ∧
    n.handle_message msg now = some ({ n with last_heartbeat := now }, []) := by
  refine ⟨?_, ?_, ?_⟩
  · intro hne2
    simp [NetworkNode.handle_message, hty, hs, hne2]
  · intro heq2
    simp [NetworkNode.handle_message, hty, hs, heq2]
  · simp [Node.handle_message, hty, hn]

/-- Witness for C3: a concrete follower NetworkNode with no known master
receives a heartbeat from master 5 and both updates its pointer and emits the
event, while the concrete prototype Node keeps master_id 0. -/
theorem C3_heartbeat_handling_witness :
    sampleNetworkNode.handle_message (heartbeatMsg 5 100) 100 =
      some ({ sampleNetworkNode with
                last_heartbeat := 100, master_id := some (.num 5) },
            [Effect.emitMasterChanged (some (.num 5))]) ∧
    sampleNode.handle_message (heartbeatMsg 5 100) 100 =
      some ({ sampleNode with last_heartbeat := 100 }, []) := by
  have h := C3_heartbeat_handling sampleNetworkNode sampleNode
    (heartbeatMsg 5 100) 100 rfl rfl rfl
  exact ⟨h.1 (by decide), h.2.2⟩

/-- Counterexample to claim C3: the prototype Node class (network.py) is cited
by the claim, yet its follower heartbeat handler neither updates the leader
pointer nor emits any event when the heartbeat names master 5 while the known
master is 0 — it only refreshes the timestamp. -/
theorem C3_counterexample :
    sampleNode.is_master = false ∧
    sampleNode.master_id = 0 ∧
    Node.handle_message sampleNode (heartbeatMsg 5 100) 100 =
      some ({ sampleNode with last_heartbeat := 100 }, []) ∧
    ({ sampleNode with last_heartbeat := 100 } : Node).master_id ≠ 5 := by
  refine ⟨rfl, rfl, by decide, by decide⟩

/-- Claim C4, evaluated against the code: stop on a node whose
cleanup-in-progress flag is false at entry emits no node_died event (the
emission guard re-reads the flag after it was just set to true, so it can
never pass), contradicting the claimed self-detected-death notification; the
concrete run shows only the socket shutdown and close effects. -/
theorem C4_stop_emits_no_node_died :
    sampleNetworkNode.cleanup_in_progress = false ∧
    (sampleNetworkNode.stop).2 = [Effect.socketShutdown, Effect.socketClose] ∧
    (∀ (s : NetworkNode) (i : Int), Effect.emitNodeDied i ∉ (s.stop).2) := by
  refine ⟨rfl, by decide, ?_⟩
  intro s i
  unfold NetworkNode.stop
  by_cases hc : s.cleanup_in_progress
  · simp [hc]
  · rcases hg : s.socket with _ | u <;> simp [hc, hg]

lemma NetworkNode.stop_spec (s : NetworkNode)
    (hc : s.cleanup_in_progress = false) (hs : s.socket = some ()) :
    s.stop = ({ s with cleanup_in_progress := false, alive := false,
                       is_active := false, socket := none },
              [Effect.socketShutdown, Effect.socketClose]) := by
  simp [NetworkNode.stop, hc, hs]

lemma NetworkNode.stop_spec_closed (s : NetworkNode)
    (hc : s.cleanup_in_progress = false) (hs : s.socket = none) :
    s.stop = ({ s with cleanup_in_progress := false, alive := false,
                       is_active := false }, []) := by
  simp [NetworkNode.stop, hc, hs]

lemma Node.prototype_stop_spec (n : Node) (hn : n.socketOpen = true) :
    n.stop = ({ n with alive := false, socketOpen := false },
              [Effect.socketClose]) := by
  simp [Node.stop, hn]

/-- Claim C2: stopping a node twice performs the transport shutdown/close and
the alive true-to-false transition exactly once — the first call produces the
single shutdown/close pair (NetworkNode) or close (Node) and clears alive, and
the second call leaves the state untouched and produces no effect at all, for
a node that is alive with an open socket and no teardown in progress. -/
theorem C2_stop_idempotent (s : NetworkNode) (n : Node)
    (hc : s.cleanup_in_progress = false) (ha : s.alive = true)
    (hs : s.socket = some ()) (hn : n.socketOpen = true) :
    s.alive = true ∧
    (s.stop).2 = [Effect.socketShutdown, Effect.socketClose] ∧
    (s.stop).1.alive = false ∧
    (s.stop).1.stop = ((s.stop).1, []) ∧
    (n.stop).2 = [Effect.socketClose] ∧
    (n.stop).1.alive = false ∧
    (n.stop).1.stop = ((n.stop).1, []) := by
  have h1 := NetworkNode.stop_spec s hc hs
  have hc2 : (s.stop).1.cleanup_in_progress = false := by rw [h1]
  have hs2 : (s.stop).1.socket = none := by rw [h1]
  have h2 := NetworkNode.stop_spec_closed (s.stop).1 hc2 hs2
  have g1 := Node.prototype_stop_spec n hn
  refine ⟨ha, by rw [h1], by rw [h1], ?_, by rw [g1], by rw [g1], ?_⟩
  · rw [h2, h1]
  · rw [g1]
    simp [Node.stop]

/-- Witness for C2 at concrete nodes: the second stop is a complete no-op. -/
theorem C2_stop_idempotent_witness :
    (sampleNetworkNode.stop).1.stop = ((sampleNetworkNode.stop).1, []) ∧
    (sampleNode.stop).1.stop = ((sampleNode.stop).1, []) :=
  ⟨(C2_stop_idempotent sampleNetworkNode sampleNode rfl rfl rfl rfl).2.2.2.1,
   (C2_stop_idempotent sampleNetworkNode sampleNode rfl rfl rfl rfl).2.2.2.2.2.2⟩

lemma NetworkNode.handle_message_is_master (s : NetworkNode) (msg : JObj)
    (now : Int) (r : NetworkNode × List Effect)
    (h : s.handle_message msg now = some r) : r.1.is_master = s.is_master := by
  unfold NetworkNode.handle_message at h
  repeat' split at h
  all_goals first
    | exact Option.noConfusion h
    | (injection h with h2; subst h2; rfl)

lemma Node.prototype_handle_message_is_master (n : Node) (msg : JObj)
    (now : Int) (r : Node × List Effect)
    (h : n.handle_message msg now = some r) : r.1.is_master = n.is_master := by
  unfold Node.handle_message at h
  repeat' split at h
  all_goals first
    | exact Option.noConfusion h
    | (injection h with h2; subst h2; rfl)

lemma NetworkNode.protoStep_is_master (s : NetworkNode) (st : ProtoStep) :
    ((s.protoStep st).1).is_master = s.is_master := by
  cases st with
  | recv msg now =>
    rcases hh : s.handle_message msg now with _ | r
    · simp [NetworkNode.protoStep, hh]
    · have h2 : (s.protoStep (ProtoStep.recv msg now)).1 = r.1 := by
        simp [NetworkNode.protoStep, hh]
      rw [h2]
      exact NetworkNode.handle_message_is_master s msg now r hh
  | monitor now =>
    show ((s.monitor_tick now).1).is_master = s.is_master
    unfold NetworkNode.monitor_tick
    split
    · split <;> rfl
    · rfl
  | elect now => rfl
  | heartbeatTick now =>
    show ((s.heartbeat_tick now).1).is_master = s.is_master
    unfold NetworkNode.heartbeat_tick
    split <;> rfl

lemma Node.prototype_protoStep_is_master (n : Node) (st : ProtoStep) :
    ((n.protoStep st).1).is_master = n.is_master := by
  cases st with
  | recv msg now =>
    rcases hh : n.handle_message msg now with _ | r
    · simp [Node.protoStep, hh]
    · have h2 : (n.protoStep (ProtoStep.recv msg now)).1 = r.1 := by
        simp [Node.protoStep, hh]
      rw [h2]
      exact Node.prototype_handle_message_is_master n msg now r hh
  | monitor now =>
    show ((n.monitor_tick now).1).is_master = n.is_master
    unfold Node.monitor_tick
    split
    · split <;> rfl
    · rfl
  | elect now => rfl
  | heartbeatTick now =>
    show ((n.heartbeat_tick now).1).is_master = n.is_master
    unfold Node.heartbeat_tick
    split <;> rfl

/-- Claim C9: over any sequence of received messages and monitor, election and
heartbeat steps, the protocol engine never modifies the node's own is_master
role field, in either node class. -/
theorem C9_role_never_modified (s : NetworkNode) (n : Node)
    (steps : List ProtoStep) :
    (NetworkNode.run s steps).is_master = s.is_master ∧
    (Node.run n steps).is_master = n.is_master := by
  constructor
  · induction steps generalizing s with
    | nil => rfl
    | cons st rest ih =>
      calc (NetworkNode.run s (st :: rest)).is_master
          = (NetworkNode.run (s.protoStep st).1 rest).is_master := rfl
        _ = ((s.protoStep st).1).is_master := ih (s.protoStep st).1
        _ = s.is_master := NetworkNode.protoStep_is_master s st
  · induction steps generalizing n with
    | nil => rfl
    | cons st rest ih =>
      calc (Node.run n (st :: rest)).is_master
          = (Node.run (n.protoStep st).1 rest).is_master := rfl
        _ = ((n.protoStep st).1).is_master := ih (n.protoStep st).1
        _ = n.is_master := Node.prototype_protoStep_is_master n st

lemma NetworkNode.handle_message_send_type (s : NetworkNode) (msg : JObj)
    (now : Int) (r : NetworkNode × List Effect) (a : String) (b : Int)
    (m : JObj) (hh : s.handle_message msg now = some r)
    (hmem : Effect.send a b m ∈ r.2) :
    m.msgType = some "master_election" := by
  rcases hty : msg.msgType with _ | ty
  · simp [NetworkNode.handle_message, hty] at hh
    subst hh
    simp at hmem
  · by_cases h1 : ty = "heartbeat"
    · subst h1
      by_cases hm : s.is_master
      · simp [NetworkNode.handle_message, hty, hm] at hh
        subst hh
        simp at hmem
      · by_cases hq : msg.get "master_id" = s.master_id
        · simp [NetworkNode.handle_message, hty, hm, hq] at hh
          subst hh
          simp at hmem
        · simp [NetworkNode.handle_message, hty, hm, hq] at hh
          subst hh
          simp at hmem
    · by_cases h2 : ty = "master_election"
      · subst h2
        by_cases hm : s.is_master
        · simp [NetworkNode.handle_message, hty, h1, hm] at hh
          subst hh
          simp at hmem
        · rcases hp : msg.get "proposed_master" with _ | v
          · simp [NetworkNode.handle_message, hty, h1, hm, hp] at hh
          · cases v with
            | str s2 => simp [NetworkNode.handle_message, hty, h1, hm, hp] at hh
            | num p =>
              rcases lt_trichotomy p s.id with hlt | heq | hgt
              · have hng : ¬ p > s.id := by omega
                simp [NetworkNode.handle_message, hty, h1, hm, hp, hlt, hng] at hh
                subst hh
                have hme : m = electionMsg s.id now :=
                  s.broadcast_send_eq _ m a b hmem
                rw [hme]
                rfl
              · have hng : ¬ p > s.id := by omega
                have hnl : ¬ p < s.id := by omega
                simp [NetworkNode.handle_message, hty, h1, hm, hp, hng, hnl] at hh
                subst hh
                simp at hmem
              · simp [NetworkNode.handle_message, hty, h1, hm, hp, hgt] at hh
                subst hh
                have hme : m = msg := s.broadcast_send_eq msg m a b hmem
                rw [hme]
                exact hty
      · simp [NetworkNode.handle_message, hty, h1, h2] at hh
        subst hh
        simp at hmem

lemma NetworkNode.protoStep_send_type (s : NetworkNode) (st : ProtoStep)
    (a : String) (b : Int) (m : JObj)
    (hmem : Effect.send a b m ∈ (s.protoStep st).2) :
    m.msgType = some "heartbeat" ∨ m.msgType = some "master_election" := by
  cases st with
  | recv msg now =>
    rcases hh : s.handle_message msg now with _ | r
    · simp [NetworkNode.protoStep, hh] at hmem
    · have h2 : (s.protoStep (ProtoStep.recv msg now)).2 = r.2 := by
        simp [NetworkNode.protoStep, hh]
      rw [h2] at hmem
      exact Or.inr (NetworkNode.handle_message_send_type s msg now r a b m hh hmem)
  | monitor now =>
    have h2 : (s.protoStep (ProtoStep.monitor now)).2 = (s.monitor_tick now).2 := rfl
    rw [h2] at hmem
    unfold NetworkNode.monitor_tick at hmem
    split at hmem
    · split at hmem
      · have hme : m = electionMsg s.id now := s.broadcast_send_eq _ m a b hmem
        rw [hme]
        exact Or.inr rfl
      · simp at hmem
    · simp at hmem
  | elect now =>
    have hme : m = electionMsg s.id now := s.broadcast_send_eq _ m a b hmem
    rw [hme]
    exact Or.inr rfl
  | heartbeatTick now =>
    have h2 : (s.protoStep (ProtoStep.heartbeatTick now)).2 =
        (s.heartbeat_tick now).2 := rfl
    rw [h2] at hmem
    unfold NetworkNode.heartbeat_tick at hmem
    split at hmem
    · have hme : m = heartbeatMsg s.id now := s.broadcast_send_eq _ m a b hmem
      rw [hme]
      exact Or.inl rfl
    · simp at hmem

/-- Claim C10: every datagram a NetworkNode protocol step can send carries the
type heartbeat or master_election (the handler never answers a datagram, in
particular never a connection_test), so against NetworkNode peers the
connectivity check's success branch is unreachable and it returns False, both
on such a received datagram and on timeout. -/
theorem C10_check_connection_always_false (s : NetworkNode) (st : ProtoStep)
    (a : String) (b : Int) (m : JObj)
    (hmem : Effect.send a b m ∈ (s.protoStep st).2) :
    checkConnectionDecide (some m) = false ∧
    checkConnectionDecide none = false := by
  refine ⟨?_, rfl⟩
  rcases NetworkNode.protoStep_send_type s st a b m hmem with h | h
  · exact checkConnectionDecide_false_of_msgType m "heartbeat" h (by decide)
  · exact checkConnectionDecide_false_of_msgType m "master_election" h (by decide)

/-- Witness for C10: the election datagram a concrete follower broadcasts is
rejected by the connectivity check. -/
theorem C10_check_connection_always_false_witness :
    checkConnectionDecide (some (electionMsg 1 0)) = false ∧
    checkConnectionDecide none = false :=
  C10_check_connection_always_false sampleNetworkNode (.elect 0) "localhost"
    5000 (electionMsg 1 0) (by decide)

/-- Witness for C8: the check accepts a concrete well-formed response. -/
theorem C8_wire_types_witness :
    checkConnectionDecide (some (connectionTestResponseMsg 2 3)) = true :=
  (C8_wire_types 2 3 (connectionTestResponseMsg 2 3)).2.2.2.2.2.2.2.1.mpr rfl
